import Mathlib

/-!
Verification development for the pangolin-ingress-controller repository.

The definitions below are a shallow embedding of the Go sources:
  * `internal/controller/ingress_controller.go` (reconciler, host parsing,
    annotation extraction, admission predicate, deletion lifecycle), and
  * the `internal/pangolin` client data types.

External effects (Pangolin REST calls and the Kubernetes object write) are
modelled by an `API` record of `Except`-valued response functions together
with an explicit trace of the calls the reconciler issues, in program order.
Go maps of annotations are modelled as association lists (first binding
wins on lookup, matching Go map semantics when keys are unique).
-/

set_option maxRecDepth 8192

namespace PangolinIngress

/-! ### Models of the Go standard-library helpers used by the controller -/

/-- Model of `strconv.ParseBool` (accepted literals exactly as in Go). -/
def goParseBool (str : String) : Option Bool :=
  if str = "1" ∨ str = "t" ∨ str = "T" ∨ str = "true" ∨ str = "TRUE" ∨ str = "True" then
    some true
  else if str = "0" ∨ str = "f" ∨ str = "F" ∨ str = "false" ∨ str = "FALSE" ∨ str = "False" then
    some false
  else
    none

/-- Decimal digit character for `d < 10`. -/
def digitChar (d : Nat) : Char := Char.ofNat (48 + d)

/-- Fuel-driven decimal printer (the fuel argument only bounds recursion;
`natRepr` always supplies enough). -/
def natReprAux : Nat → Nat → List Char
  | 0, _ => []
  | fuel + 1, n =>
    if n < 10 then [digitChar n]
    else natReprAux fuel (n / 10) ++ [digitChar (n % 10)]

/-- Decimal representation of a natural number. -/
def natRepr (n : Nat) : String := (natReprAux (n + 1) n).asString

/-- Model of `strconv.Itoa` on Go `int` values. -/
def goItoa : Int → String
  | Int.ofNat n => natRepr n
  | Int.negSucc n => "-" ++ natRepr (n + 1)

/-- Model of `strconv.Atoi` (base-10 `ParseInt` into a 64-bit Go `int`):
optional sign, at least one digit, all digits, value within `int64` range;
any violation is a parse error (`none`). -/
def goAtoi (s : String) : Option Int :=
  let chars := s.data
  if chars.isEmpty then none
  else
    let signed : Bool × List Char :=
      match chars with
      | '-' :: rest => (true, rest)
      | '+' :: rest => (false, rest)
      | _ => (false, chars)
    let neg := signed.1
    let digits := signed.2
    if digits.isEmpty then none
    else if digits.all Char.isDigit then
      let n : Nat := digits.foldl (fun acc c => acc * 10 + (c.toNat - 48)) 0
      let v : Int := if neg then -(n : Int) else (n : Int)
      if v < -(2 ^ 63) ∨ (2 ^ 63 - 1 : Int) < v then none else some v
    else none

/-- The white-space set of Go's `unicode.IsSpace` (as used by
`strings.TrimSpace`). -/
def goIsSpace (c : Char) : Bool :=
  c == ' ' || c == '\t' || c == '\n' || c == '\u000B' || c == '\u000C' || c == '\r' ||
  c == '\u0085' || c == '\u00A0' || c == '\u1680' ||
  (0x2000 ≤ c.val && c.val ≤ 0x200a) ||
  c == '\u2028' || c == '\u2029' || c == '\u202F' || c == '\u205F' || c == '\u3000'

/-- Model of `strings.TrimSpace`. -/
def goTrimSpace (s : String) : String :=
  (((s.data.dropWhile goIsSpace).reverse.dropWhile goIsSpace).reverse).asString

/-- Model of `strings.HasPrefix`. -/
def hasPrefixChars : List Char → List Char → Bool
  | _, [] => true
  | [], _ :: _ => false
  | c :: cs, q :: qs => c == q && hasPrefixChars cs qs

/-- `strings.HasPrefix` on strings (evaluable model of `String.startsWith`). -/
def goHasPrefix (s pre : String) : Bool := hasPrefixChars s.data pre.data

/-- Model of `strings.Split(s, ".")`: split a character list on the `'.'`
separator; the result is never empty and splitting the empty string yields
one empty field, exactly as in Go. -/
def splitDot : List Char → List (List Char)
  | [] => [[]]
  | c :: rest =>
    let r := splitDot rest
    if c == '.' then [] :: r
    else (c :: r.headD []) :: r.tail

/-- Model of `strings.Join(fields, ".")`. -/
def joinDot : List (List Char) → List Char
  | [] => []
  | [x] => x
  | x :: y :: xs => x ++ '.' :: joinDot (y :: xs)

/-! ### Annotation maps (Go `map[string]string`) as association lists -/

/-- Annotation maps: association lists, first binding wins. -/
abbrev AnnMap := List (String × String)

/-- Comma-ok map lookup (`v, ok := m[key]`). -/
def lookupAnn (m : AnnMap) (key : String) : Option String :=
  (m.find? (fun p => p.1 == key)).map Prod.snd

/-- Go map indexing `m[key]`, which defaults to the empty string. -/
def getAnn (m : AnnMap) (key : String) : String := (lookupAnn m key).getD ""

/-- Key-presence check (`_, ok := m[key]`). -/
def hasKey (m : AnnMap) (key : String) : Bool := m.any (fun p => p.1 == key)

/-- Go map assignment `m[key] = v`: replace the binding if the key is
present, otherwise append a new binding. -/
def insertMap : AnnMap → String → String → AnnMap
  | [], key, v => [(key, v)]
  | p :: rest, key, v =>
    if p.1 == key then (key, v) :: rest else p :: insertMap rest key v

/-! ### Pangolin client data types (`internal/pangolin`, part_002) -/

/-- A custom proxy header (`pangolin.Header`). -/
structure Header where
  name : String
  value : String
deriving DecidableEq, Repr

/-- `pangolin.Resource`. -/
structure Resource where
  ID : Int
  GUID : String
  OrgID : String
  NiceID : String
  Name : String
  Subdomain : String
  FullDomain : String
  DomainID : String
  HTTP : Bool
  Protocol : String
  Enabled : Bool
  StickySession : Bool
deriving DecidableEq, Repr

/-- `pangolin.Target`. -/
structure Target where
  ID : Int
  SiteID : Int
  IP : String
  Method : String
  Port : Int
  Enabled : Bool
  HealthStatus : String
deriving DecidableEq, Repr

/-- `pangolin.Site`. -/
structure Site where
  ID : Int
  NiceID : String
  Name : String
  Address : String
  ProxyIP : String
  Online : Bool
  SiteType : String
deriving DecidableEq, Repr

/-- `pangolin.Domain`. -/
structure Domain where
  ID : String
  BaseDomain : String
deriving DecidableEq, Repr

/-- `pangolin.CreateResourceRequest`. -/
structure CreateResourceRequest where
  Name : String
  Subdomain : String
  HTTP : Bool
  Protocol : String
  DomainID : String
  StickySession : Bool
  PostAuthPath : String
deriving DecidableEq, Repr

/-- `pangolin.UpdateResourceRequest` (the full settings payload). -/
structure UpdateResourceRequest where
  Name : String
  Subdomain : String
  DomainID : String
  Enabled : Option Bool
  SSO : Option Bool
  SSL : Option Bool
  BlockAccess : Option Bool
  EmailWhitelistEnabled : Option Bool
  ApplyRules : Option Bool
  StickySession : Option Bool
  TLSServerName : Option String
  SetHostHeader : Option String
  Headers : Option (List Header)
  PostAuthPath : Option String
deriving DecidableEq, Repr

/-- `pangolin.CreateTargetRequest` (also used for target updates). -/
structure CreateTargetRequest where
  SiteID : Int
  IP : String
  Method : String
  Port : Int
  Enabled : Bool
  Path : String
  PathMatchType : String
  RewritePath : String
  RewritePathType : String
  Priority : Int
  HCEnabled : Option Bool
  HCPath : Option String
  HCScheme : Option String
  HCMode : Option String
  HCHostname : Option String
  HCPort : Option Int
  HCInterval : Option Int
  HCUnhealthyInterval : Option Int
  HCTimeout : Option Int
  HCHeaders : Option (List Header)
  HCFollowRedirects : Option Bool
  HCMethod : Option String
  HCStatus : Option Int
  HCTLSServerName : Option String
deriving DecidableEq, Repr

/-! ### Controller constants (`ingress_controller.go` lines 26-62) -/

def pangolinFinalizerName : String := "pangolin.ingress.k8s.io/finalizer"
def annotationResourceID : String := "pangolin.ingress.k8s.io/resource-id"
def annotationSSO : String := "pangolin.ingress.k8s.io/sso"
def annotationSSL : String := "pangolin.ingress.k8s.io/ssl"
def annotationBlockAccess : String := "pangolin.ingress.k8s.io/block-access"
def annotationEmailWhitelistEnabled : String := "pangolin.ingress.k8s.io/email-whitelist-enabled"
def annotationApplyRules : String := "pangolin.ingress.k8s.io/apply-rules"
def annotationStickySession : String := "pangolin.ingress.k8s.io/sticky-session"
def annotationTLSServerName : String := "pangolin.ingress.k8s.io/tls-server-name"
def annotationSetHostHeader : String := "pangolin.ingress.k8s.io/set-host-header"
def annotationHeaders : String := "pangolin.ingress.k8s.io/headers"
def annotationPostAuthPath : String := "pangolin.ingress.k8s.io/post-auth-path"
def annotationEnabled : String := "pangolin.ingress.k8s.io/enabled"
def annotationHCEnabled : String := "pangolin.ingress.k8s.io/healthcheck-enabled"
def annotationHCPath : String := "pangolin.ingress.k8s.io/healthcheck-path"
def annotationHCScheme : String := "pangolin.ingress.k8s.io/healthcheck-scheme"
def annotationHCMode : String := "pangolin.ingress.k8s.io/healthcheck-mode"
def annotationHCHostname : String := "pangolin.ingress.k8s.io/healthcheck-hostname"
def annotationHCPort : String := "pangolin.ingress.k8s.io/healthcheck-port"
def annotationHCInterval : String := "pangolin.ingress.k8s.io/healthcheck-interval"
def annotationHCUnhealthyInterval : String := "pangolin.ingress.k8s.io/healthcheck-unhealthy-interval"
def annotationHCTimeout : String := "pangolin.ingress.k8s.io/healthcheck-timeout"
def annotationHCHeaders : String := "pangolin.ingress.k8s.io/healthcheck-headers"
def annotationHCFollowRedirects : String := "pangolin.ingress.k8s.io/healthcheck-follow-redirects"
def annotationHCMethod : String := "pangolin.ingress.k8s.io/healthcheck-method"
def annotationHCStatus : String := "pangolin.ingress.k8s.io/healthcheck-status"
def annotationHCTLSServerName : String := "pangolin.ingress.k8s.io/healthcheck-tls-server-name"

/-- The recognized annotation key namespace checked by the admission filter. -/
def pangolinAnnPrefix : String := "pangolin.ingress.k8s.io/"

/-! ### Annotation extraction (`ingress_controller.go` lines 622-668) -/

/-- `parseBoolAnnotation`: returns `none` when the key is absent, the value
is empty, or `strconv.ParseBool` fails; never an error. -/
def parseBoolAnnot (annotations : AnnMap) (key : String) : Option Bool :=
  match lookupAnn annotations key with
  | none => none
  | some v => if v = "" then none else goParseBool v

/-- `parseStringAnnotation`: returns `none` only when the key is absent. -/
def parseStringAnnot (annotations : AnnMap) (key : String) : Option String :=
  lookupAnn annotations key

/-- `parseIntAnnotation`: returns `none` when the key is absent, the value
is empty, or `strconv.Atoi` fails; never an error. -/
def parseIntAnnot (annotations : AnnMap) (key : String) : Option Int :=
  match lookupAnn annotations key with
  | none => none
  | some v => if v = "" then none else goAtoi v

/-- `parseHeadersAnnotation`: returns `none` when the key is absent, the
value is empty, or JSON decoding fails; never an error.  `decode` abstracts
`encoding/json.Unmarshal` into `[]pangolin.Header`. -/
def parseHeadersAnnot (decode : String → Option (List Header))
    (annotations : AnnMap) (key : String) : Option (List Header) :=
  match lookupAnn annotations key with
  | none => none
  | some v => if v = "" then none else decode v

/-! ### Host parsing (`parseHost`, lines 531-547) -/

/-- `parseHost`: trim white space, split on `'.'`; fewer than two labels
gives `(host, "")`; otherwise the last two labels joined form the domain
and the remaining leading labels joined form the subdomain. -/
def parseHost (host : String) : String × String :=
  let host := goTrimSpace host
  if host = "" then ("", "")
  else
    let parts := splitDot host.data
    if parts.length < 2 then (host, "")
    else
      let domain := (joinDot (parts.drop (parts.length - 2))).asString
      if parts.length = 2 then ("", domain)
      else ((joinDot (parts.take (parts.length - 2))).asString, domain)

/-! ### Path-type mapping (`pathTypeToMatch`, lines 608-620) -/

def PathTypeExact : String := "Exact"
def PathTypePrefix : String := "Prefix"
def PathTypeImplementationSpecific : String := "ImplementationSpecific"

/-- `pathTypeToMatch`: `nil` and unknown values map to `"prefix"`. -/
def pathTypeToMatch : Option String → String
  | none => "prefix"
  | some pt =>
    if pt = PathTypeExact then "exact"
    else if pt = PathTypeImplementationSpecific then "regex"
    else "prefix"

/-! ### Controller configuration and the watched object -/

/-- The configuration fields of `IngressReconciler` that the embedded code
paths read.  `decodeHeadersJson` abstracts `encoding/json.Unmarshal` into
`[]pangolin.Header` (a standard-library collaborator, not repository code). -/
structure Cfg where
  ingressClass : String
  resourcePfx : String
  siteNiceID : String
  decodeHeadersJson : String → Option (List Header)

/-- The networking/v1 Ingress fields the controller reads and writes. -/
structure IngressObj where
  ns : String
  name : String
  ingressClassName : Option String
  annotations : AnnMap
  finalizers : List String
  deletionTimestampSet : Bool
deriving DecidableEq, Repr

/-- An ingress HTTP path entry (`networkingv1.HTTPIngressPath`): the path
string and the optional `*PathType` (a Go string type). -/
structure HTTPIngressPath where
  path : String
  pathType : Option String
deriving DecidableEq, Repr

/-- External collaborators: the Pangolin REST endpoints plus the Kubernetes
object write (`r.Update`).  Each is a response function; a deterministic
response per request suffices for the reconcile properties proved below. -/
structure API where
  createResource : CreateResourceRequest → Except String Resource
  updateResource : String → UpdateResourceRequest → Except String Resource
  deleteResource : String → Except String Unit
  listTargets : String → Except String (List Target)
  createTarget : String → CreateTargetRequest → Except String Target
  updateTarget : String → CreateTargetRequest → Except String Target
  deleteTarget : String → Except String Unit
  listDomains : Except String (List Domain)
  getSiteByNiceID : String → Except String Site
  kubeUpdate : IngressObj → Except String Unit

/-- One external call issued by the controller, recorded in program order. -/
inductive Call where
  | createResource (req : CreateResourceRequest)
  | updateResource (resourceID : String) (req : UpdateResourceRequest)
  | deleteResource (resourceID : String)
  | listTargets (resourceID : String)
  | createTarget (resourceID : String) (req : CreateTargetRequest)
  | updateTarget (targetID : String) (req : CreateTargetRequest)
  | deleteTarget (targetID : String)
  | listDomains
  | getSiteByNiceID (niceID : String)
  | kubeUpdate (obj : IngressObj)
deriving DecidableEq, Repr

def Call.isCreateResource : Call → Bool
  | Call.createResource _ => true
  | _ => false

def Call.isUpdateResource : Call → Bool
  | Call.updateResource _ _ => true
  | _ => false

def Call.isCreateTarget : Call → Bool
  | Call.createTarget _ _ => true
  | _ => false

def Call.isDeleteTarget : Call → Bool
  | Call.deleteTarget _ => true
  | _ => false

def Call.isDeleteResource : Call → Bool
  | Call.deleteResource _ => true
  | _ => false

/-- The two process-wide caches of `IngressReconciler` (`domainMap`,
`siteCache`); `none` models the Go nil map / nil pointer. -/
structure CacheState where
  domainMap : Option (List (String × String))
  siteCache : Option Site

/-- Result of one `createOrUpdatePangolinResource` invocation: the call
trace, the (possibly mutated) ingress object, the caches, and the returned
error, if any. -/
structure RunOut where
  trace : List Call
  ingress : IngressObj
  cache : CacheState
  result : Except String Unit

/-! ### `isManaged` (lines 166-179) -/

def isManaged (cfg : Cfg) (ingress : IngressObj) : Bool :=
  (match ingress.ingressClassName with
   | some c => c == cfg.ingressClass
   | none => false)
  ||
  (match lookupAnn ingress.annotations "kubernetes.io/ingress.class" with
   | some c => c == cfg.ingressClass
   | none => false)

/-! ### Domain and site resolution caches (lines 549-606) -/

/-- The read path of `resolveDomainID`: a nil map is a miss. -/
def cachedDomainLookup (domainMap : Option (List (String × String)))
    (baseDomain : String) : Option String :=
  match domainMap with
  | some m => lookupAnn m baseDomain
  | none => none

/-- `resolveDomainID` (lines 573-606): read-through cache over the full
domain list; a miss re-lists and merges, a second miss is terminal.  The
reader-writer lock is a no-op in this single-invocation model. -/
def resolveDomainID (api : API) (domainMap : Option (List (String × String)))
    (baseDomain : String) :
    List Call × Option (List (String × String)) × Except String String :=
  match cachedDomainLookup domainMap baseDomain with
  | some id => ([], domainMap, Except.ok id)
  | none =>
    match api.listDomains with
    | Except.error e =>
      ([Call.listDomains], domainMap,
       Except.error ("failed to list Pangolin domains: " ++ e))
    | Except.ok domains =>
      let localMap := domains.foldl (fun acc d => insertMap acc d.BaseDomain d.ID) []
      let merged := localMap.foldl (fun acc p => insertMap acc p.1 p.2)
        (domainMap.getD [])
      match lookupAnn merged baseDomain with
      | some id => ([Call.listDomains], some merged, Except.ok id)
      | none =>
        ([Call.listDomains], some merged,
         Except.error ("no Pangolin domain configured for " ++ baseDomain))

/-- `getSiteInfo` (lines 549-571): cache a single site descriptor, fetched
once by nice ID. -/
def getSiteInfo (cfg : Cfg) (api : API) (siteCache : Option Site) :
    List Call × Option Site × Except String Site :=
  if cfg.siteNiceID = "" then
    ([], siteCache, Except.error "pangolin site nice ID is not configured")
  else
    match siteCache with
    | some site => ([], siteCache, Except.ok site)
    | none =>
      match api.getSiteByNiceID cfg.siteNiceID with
      | Except.error e => ([Call.getSiteByNiceID cfg.siteNiceID], none, Except.error e)
      | Except.ok site =>
        ([Call.getSiteByNiceID cfg.siteNiceID], some site, Except.ok site)

/-! ### Payload construction (lines 326-381 and 449-471) -/

/-- Resource name derivation (lines 326-330). -/
def resourceNameFor (cfg : Cfg) (ingress : IngressObj) (subdomain : String) : String :=
  let pfx := if cfg.resourcePfx = "" then "pangolin-controller" else cfg.resourcePfx
  pfx ++ "-" ++ ingress.ns ++ "-" ++ ingress.name ++ "-" ++ subdomain

/-- The creation payload `resourceReq` (lines 352-364). -/
def buildResourceReq (resourceName subdomain domainID : String)
    (annotations : AnnMap) : CreateResourceRequest :=
  let stickySession := parseBoolAnnot annotations annotationStickySession
  let postAuthPath := parseStringAnnot annotations annotationPostAuthPath
  { Name := resourceName
    Subdomain := subdomain
    HTTP := true
    Protocol := "tcp"
    DomainID := domainID
    StickySession := stickySession == some true
    PostAuthPath := postAuthPath.getD "" }

/-- The full settings payload `updateReq` (lines 366-381). -/
def buildUpdateReq (decode : String → Option (List Header))
    (resourceName subdomain domainID : String) (annotations : AnnMap) :
    UpdateResourceRequest :=
  { Name := resourceName
    Subdomain := subdomain
    DomainID := domainID
    Enabled := parseBoolAnnot annotations annotationEnabled
    SSO := parseBoolAnnot annotations annotationSSO
    SSL := parseBoolAnnot annotations annotationSSL
    BlockAccess := parseBoolAnnot annotations annotationBlockAccess
    EmailWhitelistEnabled := parseBoolAnnot annotations annotationEmailWhitelistEnabled
    ApplyRules := parseBoolAnnot annotations annotationApplyRules
    StickySession := parseBoolAnnot annotations annotationStickySession
    TLSServerName := parseStringAnnot annotations annotationTLSServerName
    SetHostHeader := parseStringAnnot annotations annotationSetHostHeader
    Headers := parseHeadersAnnot decode annotations annotationHeaders
    PostAuthPath := parseStringAnnot annotations annotationPostAuthPath }

/-- The target payload `targetReq` (lines 449-471), also sent on target
updates. -/
def buildTargetReq (decode : String → Option (List Header))
    (annotations : AnnMap) (siteID : Int) (targetIP : String) (targetPort : Int)
    (targetPath : String) (pathType : Option String) : CreateTargetRequest :=
  { SiteID := siteID
    IP := targetIP
    Method := "http"
    Port := targetPort
    Enabled := true
    Path := targetPath
    PathMatchType := pathTypeToMatch pathType
    RewritePath := ""
    RewritePathType := ""
    Priority := 0
    HCEnabled := parseBoolAnnot annotations annotationHCEnabled
    HCPath := parseStringAnnot annotations annotationHCPath
    HCScheme := parseStringAnnot annotations annotationHCScheme
    HCMode := parseStringAnnot annotations annotationHCMode
    HCHostname := parseStringAnnot annotations annotationHCHostname
    HCPort := parseIntAnnot annotations annotationHCPort
    HCInterval := parseIntAnnot annotations annotationHCInterval
    HCUnhealthyInterval := parseIntAnnot annotations annotationHCUnhealthyInterval
    HCTimeout := parseIntAnnot annotations annotationHCTimeout
    HCHeaders := parseHeadersAnnot decode annotations annotationHCHeaders
    HCFollowRedirects := parseBoolAnnot annotations annotationHCFollowRedirects
    HCMethod := parseStringAnnot annotations annotationHCMethod
    HCStatus := parseIntAnnot annotations annotationHCStatus
    HCTLSServerName := parseStringAnnot annotations annotationHCTLSServerName }

/-! ### Target reconciliation (lines 419-508) -/

/-- Stale-target cleanup (lines 495-506): every listed target whose id is
not the active one gets a `DeleteTarget` call; a deletion failure is only
logged (both response branches continue identically). -/
def gcStaleTargets (api : API) : List Target → Int → List Call
  | [], _ => []
  | t :: rest, activeTargetID =>
    if t.ID == activeTargetID then gcStaleTargets api rest activeTargetID
    else
      match api.deleteTarget (goItoa t.ID) with
      | Except.ok _ => Call.deleteTarget (goItoa t.ID) :: gcStaleTargets api rest activeTargetID
      | Except.error _ => Call.deleteTarget (goItoa t.ID) :: gcStaleTargets api rest activeTargetID

/-- The target phase of `createOrUpdatePangolinResource` (lines 419-508):
resolve the site, list the targets, update the first target matching the
(site-id, ip, port) triple or create one, then garbage-collect the rest. -/
def reconcileTargets (cfg : Cfg) (api : API) (siteCache : Option Site)
    (annotations : AnnMap) (resourceID : String) (ingressNs serviceName : String)
    (servicePort : Int) (path : HTTPIngressPath) :
    List Call × Option Site × Except String Unit :=
  match getSiteInfo cfg api siteCache with
  | (t1, sc1, Except.error e) => (t1, sc1, Except.error e)
  | (t1, sc1, Except.ok site) =>
    let targetIP := serviceName ++ "." ++ ingressNs ++ ".svc.cluster.local"
    let targetPort := servicePort
    let targetPath := if path.path = "" then "/" else path.path
    match api.listTargets resourceID with
    | Except.error e =>
      (t1 ++ [Call.listTargets resourceID], sc1,
       Except.error ("failed to list targets for resource " ++ resourceID ++ ": " ++ e))
    | Except.ok existingTargets =>
      let existingTarget := existingTargets.find?
        (fun t => t.SiteID == site.ID && t.IP == targetIP && t.Port == targetPort)
      let targetReq := buildTargetReq cfg.decodeHeadersJson annotations site.ID
        targetIP targetPort targetPath path.pathType
      match existingTarget with
      | some t0 =>
        let targetIDStr := goItoa t0.ID
        match api.updateTarget targetIDStr targetReq with
        | Except.error e =>
          (t1 ++ [Call.listTargets resourceID, Call.updateTarget targetIDStr targetReq], sc1,
           Except.error ("failed to update Pangolin target " ++ targetIDStr ++ ": " ++ e))
        | Except.ok _ =>
          (t1 ++ [Call.listTargets resourceID, Call.updateTarget targetIDStr targetReq]
             ++ gcStaleTargets api existingTargets t0.ID, sc1, Except.ok ())
      | none =>
        match api.createTarget resourceID targetReq with
        | Except.error e =>
          (t1 ++ [Call.listTargets resourceID, Call.createTarget resourceID targetReq], sc1,
           Except.error ("failed to create Pangolin target for service " ++ serviceName ++ ": " ++ e))
        | Except.ok newTarget =>
          (t1 ++ [Call.listTargets resourceID, Call.createTarget resourceID targetReq]
             ++ gcStaleTargets api existingTargets newTarget.ID, sc1, Except.ok ())

/-- Lines 401-406: store the new resource id in the ingress annotation map
(creating the map if needed). -/
def storeResourceID (ingress : IngressObj) (resourceID : String) : IngressObj :=
  { ingress with
    annotations := insertMap ingress.annotations annotationResourceID resourceID }

/-! ### `createOrUpdatePangolinResource` (lines 316-509) -/

def createOrUpdatePangolinResource (cfg : Cfg) (api : API) (cache : CacheState)
    (ingress : IngressObj) (host : String) (path : HTTPIngressPath)
    (serviceName : String) (servicePort : Int) : RunOut :=
  let sd := parseHost host
  let subdomain := sd.1
  let domain := sd.2
  let resourceName := resourceNameFor cfg ingress subdomain
  let resourceID := getAnn ingress.annotations annotationResourceID
  if domain = "" then
    { trace := []
      ingress := ingress
      cache := cache
      result := Except.error ("host " ++ host ++ " is missing a registrable domain") }
  else
    match resolveDomainID api cache.domainMap domain with
    | (t0, dm0, Except.error e) =>
      { trace := t0
        ingress := ingress
        cache := { domainMap := dm0, siteCache := cache.siteCache }
        result := Except.error e }
    | (t0, dm0, Except.ok domainID) =>
      let annotations := ingress.annotations
      let resourceReq := buildResourceReq resourceName subdomain domainID annotations
      let updateReq := buildUpdateReq cfg.decodeHeadersJson resourceName subdomain
        domainID annotations
      if resourceID ≠ "" then
        -- Has id: update with the full settings payload (lines 385-391)
        match api.updateResource resourceID updateReq with
        | Except.error e =>
          { trace := t0 ++ [Call.updateResource resourceID updateReq]
            ingress := ingress
            cache := { domainMap := dm0, siteCache := cache.siteCache }
            result := Except.error ("failed to update Pangolin resource " ++ resourceID ++ ": " ++ e) }
        | Except.ok _ =>
          match reconcileTargets cfg api cache.siteCache annotations resourceID
              ingress.ns serviceName servicePort path with
          | (t2, sc2, res) =>
            { trace := t0 ++ [Call.updateResource resourceID updateReq] ++ t2
              ingress := ingress
              cache := { domainMap := dm0, siteCache := sc2 }
              result := res }
      else
        -- No id: create, persist the id annotation, then apply settings
        -- (lines 392-417)
        match api.createResource resourceReq with
        | Except.error e =>
          { trace := t0 ++ [Call.createResource resourceReq]
            ingress := ingress
            cache := { domainMap := dm0, siteCache := cache.siteCache }
            result := Except.error ("failed to create Pangolin resource for host " ++ host ++ ": " ++ e) }
        | Except.ok resource =>
          let resourceID1 := goItoa resource.ID
          let ingress1 := storeResourceID ingress resourceID1
          match api.kubeUpdate ingress1 with
          | Except.error e =>
            { trace := t0 ++ [Call.createResource resourceReq, Call.kubeUpdate ingress1]
              ingress := ingress1
              cache := { domainMap := dm0, siteCache := cache.siteCache }
              result := Except.error e }
          | Except.ok _ =>
            match api.updateResource resourceID1 updateReq with
            | Except.error e =>
              { trace := t0 ++ [Call.createResource resourceReq, Call.kubeUpdate ingress1,
                  Call.updateResource resourceID1 updateReq]
                ingress := ingress1
                cache := { domainMap := dm0, siteCache := cache.siteCache }
                result := Except.error ("failed to apply settings to new Pangolin resource "
                  ++ resourceID1 ++ ": " ++ e) }
            | Except.ok _ =>
              match reconcileTargets cfg api cache.siteCache annotations resourceID1
                  ingress.ns serviceName servicePort path with
              | (t2, sc2, res) =>
                { trace := t0 ++ [Call.createResource resourceReq, Call.kubeUpdate ingress1,
                    Call.updateResource resourceID1 updateReq] ++ t2
                  ingress := ingress1
                  cache := { domainMap := dm0, siteCache := sc2 }
                  result := res }

/-! ### Deletion lifecycle (lines 124-140 and 511-529) -/

/-- `deletePangolinResources` (lines 511-529): skip when no resource id is
stored, otherwise delete the external resource. -/
def deletePangolinResources (api : API) (ingress : IngressObj) :
    List Call × Except String Unit :=
  let resourceID := getAnn ingress.annotations annotationResourceID
  if resourceID = "" then ([], Except.ok ())
  else
    match api.deleteResource resourceID with
    | Except.error e => ([Call.deleteResource resourceID], Except.error e)
    | Except.ok _ => ([Call.deleteResource resourceID], Except.ok ())

/-- Outcome of the deletion branch of `Reconcile`: either the branch
handled the event (returning the given result), or the deletion timestamp
was unset and control falls through to the normal path. -/
inductive DeletionOutcome where
  | handled (res : Except String Unit)
  | fallThrough
deriving Repr

/-- `controllerutil.RemoveFinalizer`: drop every occurrence of the
controller's finalizer from the object. -/
def removeFinalizer (ingress : IngressObj) : IngressObj :=
  { ingress with
    finalizers := ingress.finalizers.filter (fun f => !(f == pangolinFinalizerName)) }

/-- The deletion branch of `Reconcile` (lines 124-140): with a deletion
timestamp and the finalizer present, delete the Pangolin resources, then
remove the finalizer and persist; errors abort before finalizer removal. -/
def reconcileDeletionBranch (api : API) (ingress : IngressObj) :
    List Call × IngressObj × DeletionOutcome :=
  if ingress.deletionTimestampSet then
    if ingress.finalizers.contains pangolinFinalizerName then
      match deletePangolinResources api ingress with
      | (t, Except.error e) => (t, ingress, DeletionOutcome.handled (Except.error e))
      | (t, Except.ok _) =>
        let ingress1 := removeFinalizer ingress
        match api.kubeUpdate ingress1 with
        | Except.error e =>
          (t ++ [Call.kubeUpdate ingress1], ingress1, DeletionOutcome.handled (Except.error e))
        | Except.ok _ =>
          (t ++ [Call.kubeUpdate ingress1], ingress1, DeletionOutcome.handled (Except.ok ()))
    else ([], ingress, DeletionOutcome.handled (Except.ok ()))
  else ([], ingress, DeletionOutcome.fallThrough)

/-! ### Admission filter (lines 670-707) -/

/-- `pangolinAnnotationChangedPredicate.Update`: scan the new map for a
recognized key (other than the resource-id key) whose value differs from
the old map's defaulted lookup, then scan the old map for recognized keys
that were removed. -/
def pangolinAnnotationChangedPredicateUpdate (oldAnn newAnn : AnnMap) : Bool :=
  (newAnn.any (fun p =>
    if p.1 == annotationResourceID then false
    else if !(goHasPrefix p.1 pangolinAnnPrefix) then false
    else getAnn oldAnn p.1 != p.2))
  ||
  (oldAnn.any (fun p =>
    if p.1 == annotationResourceID then false
    else if !(goHasPrefix p.1 pangolinAnnPrefix) then false
    else !(hasKey newAnn p.1)))

/-- Spec-side predicate for claim C9, modelled from the claim's words: some
annotation key with the recognized prefix, other than the resource-id
annotation, was added, removed, or had its value changed. -/
def recognizedAnnChangeSpec (oldAnn newAnn : AnnMap) : Prop :=
  ∃ key, goHasPrefix key pangolinAnnPrefix = true ∧ key ≠ annotationResourceID ∧
    ((lookupAnn oldAnn key = none ∧ lookupAnn newAnn key ≠ none)
     ∨ (lookupAnn oldAnn key ≠ none ∧ lookupAnn newAnn key = none)
     ∨ (∃ v w, lookupAnn oldAnn key = some v ∧ lookupAnn newAnn key = some w ∧ v ≠ w))

/-- Amended spec-side predicate for claim C9: as `recognizedAnnChangeSpec`,
except that a key added with the empty-string value does not count (the
code's defaulted lookup cannot distinguish it from an absent key). -/
def recognizedAnnChangeAmended (oldAnn newAnn : AnnMap) : Prop :=
  ∃ key, goHasPrefix key pangolinAnnPrefix = true ∧ key ≠ annotationResourceID ∧
    ((lookupAnn oldAnn key ≠ none ∧ lookupAnn newAnn key = none)
     ∨ (∃ v w, lookupAnn oldAnn key = some v ∧ lookupAnn newAnn key = some w ∧ v ≠ w)
     ∨ (lookupAnn oldAnn key = none ∧ ∃ w, lookupAnn newAnn key = some w ∧ w ≠ ""))

/-! ### Concrete fixtures used by witnesses and counterexamples -/

/-- A header decoder that rejects every payload (the behaviour of
`json.Unmarshal` on malformed input). -/
def hdrDecodeNone : String → Option (List Header) := fun _ => none

def cfg0 : Cfg :=
  { ingressClass := "pangolin"
    resourcePfx := ""
    siteNiceID := "site1"
    decodeHeadersJson := hdrDecodeNone }

def site0 : Site :=
  { ID := 7, NiceID := "site1", Name := "main", Address := ""
    ProxyIP := "10.0.0.1", Online := true, SiteType := "" }

/-- A target that matches the triple (site 7, `svc.ns1.svc.cluster.local`, 80). -/
def target0 : Target :=
  { ID := 3, SiteID := 7, IP := "svc.ns1.svc.cluster.local", Method := "http"
    Port := 80, Enabled := true, HealthStatus := "" }

/-- A stale target on the same resource (different port). -/
def targetStale : Target :=
  { ID := 4, SiteID := 7, IP := "old.ns1.svc.cluster.local", Method := "http"
    Port := 81, Enabled := true, HealthStatus := "" }

def res0 : Resource :=
  { ID := 42, GUID := "", OrgID := "org", NiceID := "", Name := ""
    Subdomain := "", FullDomain := "", DomainID := "dom1", HTTP := true
    Protocol := "tcp", Enabled := true, StickySession := false }

def dom0 : Domain := { ID := "dom1", BaseDomain := "example.com" }

/-- An API on which every endpoint succeeds with fixed responses. -/
def apiOk : API :=
  { createResource := fun _ => Except.ok res0
    updateResource := fun _ _ => Except.ok res0
    deleteResource := fun _ => Except.ok ()
    listTargets := fun _ => Except.ok [target0]
    createTarget := fun _ _ => Except.ok target0
    updateTarget := fun _ _ => Except.ok target0
    deleteTarget := fun _ => Except.ok ()
    listDomains := Except.ok [dom0]
    getSiteByNiceID := fun _ => Except.ok site0
    kubeUpdate := fun _ => Except.ok () }

/-- Like `apiOk` but the resource settings update always fails. -/
def apiSettingsFail : API := { apiOk with updateResource := fun _ _ => Except.error "boom" }

/-- Like `apiOk` but the external resource deletion always fails. -/
def apiDeleteResFail : API := { apiOk with deleteResource := fun _ => Except.error "down" }

def cache0 : CacheState := { domainMap := none, siteCache := some site0 }

/-- A managed ingress already carrying the stored resource-id annotation. -/
def ing0 : IngressObj :=
  { ns := "ns1", name := "app", ingressClassName := some "pangolin"
    annotations := [(annotationResourceID, "42")]
    finalizers := [pangolinFinalizerName]
    deletionTimestampSet := false }

/-- A managed ingress with no stored resource id yet. -/
def ingNew : IngressObj := { ing0 with annotations := [] }

def path0 : HTTPIngressPath := { path := "/", pathType := some PathTypePrefix }

/-- Like `apiOk` but listing targets returns a matching and a stale target. -/
def apiTwoTargets : API := { apiOk with listTargets := fun _ => Except.ok [target0, targetStale] }

/-- Like `apiTwoTargets` but every stale-target deletion fails. -/
def apiDeleteTgtFail : API :=
  { apiTwoTargets with deleteTarget := fun _ => Except.error "down" }

/-! ### Helper lemmas -/

theorem natReprAux_ne_nil (fuel n : Nat) : natReprAux (fuel + 1) n ≠ [] := by
  unfold natReprAux
  split <;> simp

theorem natRepr_ne_empty (n : Nat) : natRepr n ≠ "" := by
  have h := natReprAux_ne_nil n n
  simpa [natRepr, List.asString, String.ext_iff] using h

theorem goItoa_ne_empty (i : Int) : goItoa i ≠ "" := by
  cases i with
  | ofNat n => simpa [goItoa] using natRepr_ne_empty n
  | negSucc n =>
    have h := natReprAux_ne_nil (n + 1) (n + 1)
    simp [goItoa, natRepr, List.asString, String.ext_iff]

theorem lookupAnn_insertMap_self (m : AnnMap) (key v : String) :
    lookupAnn (insertMap m key v) key = some v := by
  induction m with
  | nil => simp [insertMap, lookupAnn, List.find?]
  | cons p rest ih =>
    by_cases h : p.1 = key
    · simp [insertMap, h, lookupAnn, List.find?]
    · have hb : (p.1 == key) = false := by simpa using h
      simp only [insertMap, hb, if_false]
      simpa [lookupAnn, List.find?, hb] using ih

theorem getAnn_insertMap_self (m : AnnMap) (key v : String) :
    getAnn (insertMap m key v) key = v := by
  simp [getAnn, lookupAnn_insertMap_self]

theorem resolveDomainID_trace (api : API) (dm : Option (List (String × String)))
    (d : String) :
    (resolveDomainID api dm d).1 = [] ∨ (resolveDomainID api dm d).1 = [Call.listDomains] := by
  unfold resolveDomainID
  cases cachedDomainLookup dm d with
  | some id => exact Or.inl rfl
  | none =>
    cases api.listDomains with
    | error e => exact Or.inr rfl
    | ok domains =>
      simp only []
      split
      · exact Or.inr rfl
      · exact Or.inr rfl

theorem getSiteInfo_trace (cfg : Cfg) (api : API) (sc : Option Site) :
    (getSiteInfo cfg api sc).1 = []
      ∨ (getSiteInfo cfg api sc).1 = [Call.getSiteByNiceID cfg.siteNiceID] := by
  unfold getSiteInfo
  split
  · exact Or.inl rfl
  · split
    · exact Or.inl rfl
    · split
      · exact Or.inr rfl
      · exact Or.inr rfl

theorem gcStaleTargets_eq (api : API) (ts : List Target) (active : Int) :
    gcStaleTargets api ts active
      = (ts.filter (fun t => !(t.ID == active))).map
          (fun t => Call.deleteTarget (goItoa t.ID)) := by
  induction ts with
  | nil => rfl
  | cons t rest ih =>
    by_cases h : t.ID = active
    · have hb : (t.ID == active) = true := by simpa using h
      rw [gcStaleTargets, if_pos hb, ih, List.filter_cons]
      simp [hb]
    · have hb : (t.ID == active) = false := by simpa using h
      rw [gcStaleTargets, if_neg (by simp [hb]), List.filter_cons]
      cases api.deleteTarget (goItoa t.ID) with
      | ok u => simp [hb, ih]
      | error e => simp [hb, ih]

theorem gcStaleTargets_countP_zero (api : API) (ts : List Target) (active : Int)
    (p : Call → Bool) (hp : ∀ id, p (Call.deleteTarget id) = false) :
    (gcStaleTargets api ts active).countP p = 0 := by
  rw [gcStaleTargets_eq]
  rw [List.countP_eq_zero]
  intro c hc
  rcases List.mem_map.mp hc with ⟨t, _, rfl⟩
  simp [hp]

/-! ### Claim theorems -/

/-- C5, counterexample: `parseHost` trims white space first, so for the
host `" example"` (fewer than two labels) the returned subdomain is the
trimmed host `"example"`, not the raw host `" example"` that the claim
requires. -/
theorem c5_counterexample :
    parseHost " example" = ("example", "")
      ∧ parseHost " example" ≠ (" example", "") := by
  constructor
  · decide
  · decide

/-- C5 (amended): `parseHost` first trims surrounding white space; on the
trimmed host it splits on `'.'`, and with at least two labels the domain is
the last two labels joined by `'.'` and the subdomain the remaining leading
labels joined by `'.'` (empty for exactly two labels); with fewer than two
labels the domain is empty and the subdomain is the *trimmed* host.
Moreover `createOrUpdatePangolinResource` returns an error, after zero
external calls, whenever the parsed domain is empty. -/
theorem c5_parseHost_amended (host : String) :
    (parseHost host =
      if (splitDot (goTrimSpace host).data).length < 2 then (goTrimSpace host, "")
      else
        ((joinDot ((splitDot (goTrimSpace host).data).take
            ((splitDot (goTrimSpace host).data).length - 2))).asString,
         (joinDot ((splitDot (goTrimSpace host).data).drop
            ((splitDot (goTrimSpace host).data).length - 2))).asString))
    ∧ ((parseHost host).2 = "" →
        ∀ (cfg : Cfg) (api : API) (cache : CacheState) (ingress : IngressObj)
          (path : HTTPIngressPath) (serviceName : String) (servicePort : Int),
          (createOrUpdatePangolinResource cfg api cache ingress host path
              serviceName servicePort).trace = []
          ∧ (createOrUpdatePangolinResource cfg api cache ingress host path
              serviceName servicePort).result
             = Except.error ("host " ++ host ++ " is missing a registrable domain")) := by
  constructor
  · by_cases hE : goTrimSpace host = ""
    · rw [hE]
      simp [parseHost, hE]
      decide
    · rw [parseHost]
      simp only [hE, if_false]
      by_cases hL : (splitDot (goTrimSpace host).data).length < 2
      · simp [hL]
      · simp only [hL, if_false]
        by_cases h2 : (splitDot (goTrimSpace host).data).length = 2
        · simp [h2, joinDot, List.asString]
        · simp [h2]
  · intro hdom cfg api cache ingress path serviceName servicePort
    constructor
    · simp [createOrUpdatePangolinResource, hdom]
    · simp [createOrUpdatePangolinResource, hdom]

/-- C5 witness: concrete evaluations of the amended statement. -/
theorem c5_witness :
    (parseHost "a.b.example.com" =
      if (splitDot (goTrimSpace "a.b.example.com").data).length < 2 then
        (goTrimSpace "a.b.example.com", "")
      else
        ((joinDot ((splitDot (goTrimSpace "a.b.example.com").data).take
            ((splitDot (goTrimSpace "a.b.example.com").data).length - 2))).asString,
         (joinDot ((splitDot (goTrimSpace "a.b.example.com").data).drop
            ((splitDot (goTrimSpace "a.b.example.com").data).length - 2))).asString))
    ∧ (createOrUpdatePangolinResource cfg0 apiOk cache0 ing0 "example" path0
        "svc" 80).trace = [] :=
  ⟨(c5_parseHost_amended "a.b.example.com").1,
   ((c5_parseHost_amended "example").2 (by decide) cfg0 apiOk cache0 ing0 path0 "svc" 80).1⟩

/-- C7: the boolean, integer and JSON-header annotation parsers are
fail-open: a missing key, an empty value, or a value that fails to parse
all yield `none` (absent); the parsers return plain `Option` values, so no
error can be produced and reconciliation is never aborted by them. -/
theorem c7_annotations_fail_open (decode : String → Option (List Header))
    (annotations : AnnMap) (key : String) :
    (lookupAnn annotations key = none →
      parseBoolAnnot annotations key = none
      ∧ parseIntAnnot annotations key = none
      ∧ parseHeadersAnnot decode annotations key = none)
    ∧ (lookupAnn annotations key = some "" →
      parseBoolAnnot annotations key = none
      ∧ parseIntAnnot annotations key = none
      ∧ parseHeadersAnnot decode annotations key = none)
    ∧ (∀ v, lookupAnn annotations key = some v → goParseBool v = none →
        parseBoolAnnot annotations key = none)
    ∧ (∀ v, lookupAnn annotations key = some v → goAtoi v = none →
        parseIntAnnot annotations key = none)
    ∧ (∀ v, lookupAnn annotations key = some v → decode v = none →
        parseHeadersAnnot decode annotations key = none) := by
  refine ⟨?_, ?_, ?_, ?_, ?_⟩
  · intro h
    simp [parseBoolAnnot, parseIntAnnot, parseHeadersAnnot, h]
  · intro h
    simp [parseBoolAnnot, parseIntAnnot, parseHeadersAnnot, h]
  · intro v hv hparse
    simp only [parseBoolAnnot, hv]
    split <;> simp [hparse]
  · intro v hv hparse
    simp only [parseIntAnnot, hv]
    split <;> simp [hparse]
  · intro v hv hparse
    simp only [parseHeadersAnnot, hv]
    split <;> simp [hparse]

/-- C7 witness: the value `"notabool"` for a boolean annotation, a
malformed integer, and malformed JSON headers are all treated as absent. -/
theorem c7_witness :
    parseBoolAnnot [(annotationSSO, "notabool")] annotationSSO = none
    ∧ parseIntAnnot [(annotationHCPort, "12x")] annotationHCPort = none
    ∧ parseHeadersAnnot hdrDecodeNone [(annotationHeaders, "[notjson")]
        annotationHeaders = none :=
  ⟨(c7_annotations_fail_open hdrDecodeNone _ _).2.2.1 "notabool" (by decide) (by decide),
   (c7_annotations_fail_open hdrDecodeNone _ _).2.2.2.1 "12x" (by decide) (by decide),
   (c7_annotations_fail_open hdrDecodeNone _ _).2.2.2.2 "[notjson" (by decide) rfl⟩

/-- C10: `pathTypeToMatch` is total: `Exact` maps to `"exact"`,
`ImplementationSpecific` maps to `"regex"`, and `Prefix`, any other value,
and a nil pointer all map to `"prefix"`. -/
theorem c10_pathTypeToMatch_total :
    pathTypeToMatch (some PathTypeExact) = "exact"
    ∧ pathTypeToMatch (some PathTypeImplementationSpecific) = "regex"
    ∧ pathTypeToMatch (some PathTypePrefix) = "prefix"
    ∧ pathTypeToMatch none = "prefix"
    ∧ (∀ s : String, s ≠ PathTypeExact → s ≠ PathTypeImplementationSpecific →
        pathTypeToMatch (some s) = "prefix") := by
  refine ⟨by decide, by decide, by decide, rfl, ?_⟩
  intro s h1 h2
  simp [pathTypeToMatch, h1, h2]

/-- C10 witness: an unrecognized path type maps to `"prefix"`. -/
theorem c10_witness : pathTypeToMatch (some "Whatever") = "prefix" :=
  c10_pathTypeToMatch_total.2.2.2.2 "Whatever" (by decide) (by decide)

/-! ### Association-list lookup lemmas (for the admission filter) -/

theorem lookupAnn_mem {m : AnnMap} {k v : String} (h : lookupAnn m k = some v) :
    (k, v) ∈ m := by
  induction m with
  | nil => simp [lookupAnn] at h
  | cons p rest ih =>
    by_cases hk : (p.1 == k) = true
    · have hk' : p.1 = k := by simpa using hk
      simp only [lookupAnn, List.find?, hk, Option.map_some] at h
      have hp : p = (k, v) := by
        rcases p with ⟨a, b⟩
        have ha : a = k := by simpa using hk'
        have hb : b = v := by simpa using h
        simp [ha, hb]
      simp [hp]
    · have hkf : (p.1 == k) = false := by simpa using hk
      simp only [lookupAnn, List.find?, hkf] at h
      exact List.mem_cons_of_mem _ (ih (by simpa [lookupAnn] using h))

theorem lookupAnn_of_mem_nodup {m : AnnMap} {k v : String}
    (hmem : (k, v) ∈ m) (hnd : (m.map Prod.fst).Nodup) :
    lookupAnn m k = some v := by
  induction m with
  | nil => simp at hmem
  | cons p rest ih =>
    have hnd' : p.1 ∉ rest.map Prod.fst ∧ (rest.map Prod.fst).Nodup := by
      simpa [List.nodup_cons] using hnd
    rcases List.mem_cons.mp hmem with h | h
    · rw [← h]
      simp [lookupAnn, List.find?]
    · have hk : (p.1 == k) = false := by
        have hkm : k ∈ rest.map Prod.fst := List.mem_map.mpr ⟨(k, v), h, rfl⟩
        have hne : p.1 ≠ k := fun he => hnd'.1 (he ▸ hkm)
        simpa using hne
      simp only [lookupAnn, List.find?, hk]
      exact ih h hnd'.2

theorem lookupAnn_eq_none_iff_hasKey {m : AnnMap} {k : String} :
    lookupAnn m k = none ↔ hasKey m k = false := by
  induction m with
  | nil =>
    constructor
    · intro _; rfl
    · intro _; rfl
  | cons p rest ih =>
    by_cases hk : (p.1 == k) = true
    · simp [lookupAnn, List.find?, hasKey, hk]
    · have hkf : (p.1 == k) = false := by simpa using hk
      constructor
      · intro h
        have h' : lookupAnn rest k = none := by
          simpa [lookupAnn, List.find?, hkf] using h
        show hasKey (p :: rest) k = false
        simp only [hasKey, List.any_cons, hkf, Bool.false_or]
        exact ih.mp h'
      · intro h
        have h2 : hasKey rest k = false := by
          have := h
          simp only [hasKey, List.any_cons, hkf, Bool.false_or] at this
          exact this
        simpa [lookupAnn, List.find?, hkf] using ih.mpr h2

/-- C9, counterexample: adding a recognized annotation with the empty
string as value is an addition the claim requires the predicate to report,
but the code's defaulted map lookup cannot see it, so the predicate returns
false and the claimed equivalence fails. -/
theorem c9_counterexample :
    ¬(pangolinAnnotationChangedPredicateUpdate [] [(annotationSSO, "")] = true
        ↔ recognizedAnnChangeSpec [] [(annotationSSO, "")]) := by
  intro h
  have hspec : recognizedAnnChangeSpec [] [(annotationSSO, "")] :=
    ⟨annotationSSO, by decide, by decide, Or.inl ⟨rfl, by decide⟩⟩
  exact absurd (h.mpr hspec) (by decide)

/-- C9 (amended): for annotation maps with unique keys, the update
predicate returns true if and only if some key with the recognized prefix,
other than the resource-id annotation, was removed, had its value changed,
or was added with a non-empty value (a key added with the empty value is
indistinguishable from an absent key under the code's defaulted lookup);
in particular an update touching only the resource-id annotation does not
trigger a reconcile. -/
theorem c9_predicate_amended (oldAnn newAnn : AnnMap)
    (hold : (oldAnn.map Prod.fst).Nodup) (hnew : (newAnn.map Prod.fst).Nodup) :
    pangolinAnnotationChangedPredicateUpdate oldAnn newAnn = true
      ↔ recognizedAnnChangeAmended oldAnn newAnn := by
  constructor
  · intro h
    rw [pangolinAnnotationChangedPredicateUpdate, Bool.or_eq_true] at h
    rcases h with h | h
    · rcases List.any_eq_true.mp h with ⟨⟨key, newVal⟩, hmem, hcond⟩
      simp only at hcond
      split_ifs at hcond with h1 h2
      have hne : key ≠ annotationResourceID := by simpa using h1
      have hpre : goHasPrefix key pangolinAnnPrefix = true := by simpa using h2
      have hval : getAnn oldAnn key ≠ newVal := by simpa using hcond
      have hlooknew : lookupAnn newAnn key = some newVal :=
        lookupAnn_of_mem_nodup hmem hnew
      cases hl : lookupAnn oldAnn key with
      | none =>
        refine ⟨key, hpre, hne, Or.inr (Or.inr ⟨hl, newVal, hlooknew, ?_⟩)⟩
        intro hcontra
        apply hval
        simp [getAnn, hl, hcontra]
      | some v =>
        refine ⟨key, hpre, hne, Or.inr (Or.inl ⟨v, newVal, hl, hlooknew, ?_⟩)⟩
        intro hcontra
        apply hval
        simp [getAnn, hl, hcontra]
    · rcases List.any_eq_true.mp h with ⟨⟨key, v⟩, hmem, hcond⟩
      simp only at hcond
      split_ifs at hcond with h1 h2
      have hne : key ≠ annotationResourceID := by simpa using h1
      have hpre : goHasPrefix key pangolinAnnPrefix = true := by simpa using h2
      have hkey : hasKey newAnn key = false := by simpa using hcond
      have hlookold : lookupAnn oldAnn key = some v :=
        lookupAnn_of_mem_nodup hmem hold
      refine ⟨key, hpre, hne, Or.inl ⟨by simp [hlookold], ?_⟩⟩
      exact lookupAnn_eq_none_iff_hasKey.mpr hkey
  · rintro ⟨key, hpre, hne, hbranch⟩
    rw [pangolinAnnotationChangedPredicateUpdate, Bool.or_eq_true]
    have hbne : (key == annotationResourceID) = false := by simpa using hne
    rcases hbranch with ⟨hosome, hnnone⟩ | ⟨v, w, hov, hnw, hvw⟩ | ⟨honone, w, hnw, hwne⟩
    · right
      rcases Option.ne_none_iff_exists'.mp hosome with ⟨v, hv⟩
      refine List.any_eq_true.mpr ⟨(key, v), lookupAnn_mem hv, ?_⟩
      simp only [hbne, hpre]
      simp [lookupAnn_eq_none_iff_hasKey.mp hnnone]
    · left
      refine List.any_eq_true.mpr ⟨(key, w), lookupAnn_mem hnw, ?_⟩
      simp only [hbne, hpre]
      simp [getAnn, hov, hvw]
    · left
      refine List.any_eq_true.mpr ⟨(key, w), lookupAnn_mem hnw, ?_⟩
      simp only [hbne, hpre]
      simp [getAnn, honone, Ne.symm hwne]

/-- C9 witness: removing a recognized annotation triggers the predicate,
and an update touching only the resource-id annotation does not. -/
theorem c9_witness :
    pangolinAnnotationChangedPredicateUpdate [(annotationSSO, "true")] [] = true
    ∧ pangolinAnnotationChangedPredicateUpdate [] [(annotationResourceID, "42")] = false :=
  ⟨(c9_predicate_amended [(annotationSSO, "true")] [] (by decide) (by decide)).mpr
      ⟨annotationSSO, by decide, by decide, Or.inl ⟨by decide, by decide⟩⟩,
   by decide⟩

/-! ### Deletion lifecycle (claim C6) -/

/-- C6: the deletion lifecycle of a managed ingress.  With no deletion
timestamp the deletion branch issues no calls, changes nothing and falls
through; with the timestamp and the finalizer present, `DeleteResource` is
called before the finalizer-removal write (exactly once, per the exact
trace); if `DeleteResource` fails the branch returns the error with the
object unchanged (finalizer and resource-id annotation intact); and with an
empty resource-id annotation no external delete is issued and the finalizer
is removed directly. -/
theorem c6_deletion_lifecycle (cfg : Cfg) (api : API) (ingress : IngressObj)
    (hman : isManaged cfg ingress = true) :
    (ingress.deletionTimestampSet = false →
      reconcileDeletionBranch api ingress = ([], ingress, DeletionOutcome.fallThrough))
    ∧ (ingress.deletionTimestampSet = true →
        ingress.finalizers.contains pangolinFinalizerName = true →
        getAnn ingress.annotations annotationResourceID ≠ "" →
        api.deleteResource (getAnn ingress.annotations annotationResourceID) = Except.ok () →
        api.kubeUpdate (removeFinalizer ingress) = Except.ok () →
        reconcileDeletionBranch api ingress =
          ([Call.deleteResource (getAnn ingress.annotations annotationResourceID),
            Call.kubeUpdate (removeFinalizer ingress)],
           removeFinalizer ingress,
           DeletionOutcome.handled (Except.ok ())))
    ∧ (ingress.deletionTimestampSet = true →
        ingress.finalizers.contains pangolinFinalizerName = true →
        getAnn ingress.annotations annotationResourceID ≠ "" →
        ∀ e, api.deleteResource (getAnn ingress.annotations annotationResourceID) = Except.error e →
        reconcileDeletionBranch api ingress =
          ([Call.deleteResource (getAnn ingress.annotations annotationResourceID)],
           ingress, DeletionOutcome.handled (Except.error e)))
    ∧ (ingress.deletionTimestampSet = true →
        ingress.finalizers.contains pangolinFinalizerName = true →
        getAnn ingress.annotations annotationResourceID = "" →
        api.kubeUpdate (removeFinalizer ingress) = Except.ok () →
        reconcileDeletionBranch api ingress =
          ([Call.kubeUpdate (removeFinalizer ingress)],
           removeFinalizer ingress,
           DeletionOutcome.handled (Except.ok ()))) := by
  refine ⟨?_, ?_, ?_, ?_⟩
  · intro hts
    simp [reconcileDeletionBranch, hts]
  · intro hts hfin hid hdel hku
    rw [reconcileDeletionBranch]
    simp only [hts, if_true, hfin, if_true]
    rw [deletePangolinResources, if_neg hid, hdel]
    simp only []
    rw [hku]
    rfl
  · intro hts hfin hid e hdel
    rw [reconcileDeletionBranch]
    simp only [hts, if_true, hfin, if_true]
    rw [deletePangolinResources, if_neg hid, hdel]
  · intro hts hfin hid hku
    rw [reconcileDeletionBranch]
    simp only [hts, if_true, hfin, if_true]
    rw [deletePangolinResources, if_pos hid]
    simp only []
    rw [hku]
    rfl

/-- C6 witness: a concrete deleting ingress with the finalizer and a stored
resource id gets the external delete followed by the finalizer-removal
write, and the no-timestamp case falls through. -/
theorem c6_witness :
    reconcileDeletionBranch apiOk { ing0 with deletionTimestampSet := true } =
      ([Call.deleteResource "42",
        Call.kubeUpdate { ing0 with deletionTimestampSet := true, finalizers := [] }],
       { ing0 with deletionTimestampSet := true, finalizers := [] },
       DeletionOutcome.handled (Except.ok ()))
    ∧ reconcileDeletionBranch apiOk ing0 = ([], ing0, DeletionOutcome.fallThrough) := by
  constructor
  · have h := (c6_deletion_lifecycle cfg0 apiOk { ing0 with deletionTimestampSet := true }
      (by decide)).2.1 rfl (by decide) (by decide) rfl rfl
    exact h.trans (by rfl)
  · exact (c6_deletion_lifecycle cfg0 apiOk ing0 (by decide)).1 rfl

/-! ### Trace lemmas for the target phase -/

theorem gc_countP_createResource (api : API) (ts : List Target) (active : Int) :
    (gcStaleTargets api ts active).countP Call.isCreateResource = 0 :=
  gcStaleTargets_countP_zero api ts active Call.isCreateResource (fun _ => rfl)

theorem gc_countP_createTarget (api : API) (ts : List Target) (active : Int) :
    (gcStaleTargets api ts active).countP Call.isCreateTarget = 0 :=
  gcStaleTargets_countP_zero api ts active Call.isCreateTarget (fun _ => rfl)

theorem filter_isDeleteTarget_gc (api : API) (ts : List Target) (active : Int) :
    (gcStaleTargets api ts active).filter Call.isDeleteTarget
      = gcStaleTargets api ts active := by
  rw [List.filter_eq_self]
  intro c hc
  rw [gcStaleTargets_eq] at hc
  rcases List.mem_map.mp hc with ⟨t, _, rfl⟩
  rfl

/-- The target phase never calls `CreateResource`. -/
theorem reconcileTargets_countP_createResource (cfg : Cfg) (api : API)
    (siteCache : Option Site) (annotations : AnnMap)
    (resourceID ingressNs serviceName : String) (servicePort : Int)
    (path : HTTPIngressPath) :
    (reconcileTargets cfg api siteCache annotations resourceID ingressNs
      serviceName servicePort path).1.countP Call.isCreateResource = 0 := by
  have hG := getSiteInfo_trace cfg api siteCache
  rcases hGE : getSiteInfo cfg api siteCache with ⟨t1, sc1, r⟩
  rw [hGE] at hG
  simp only at hG
  have ht1 : t1.countP Call.isCreateResource = 0 := by
    rcases hG with h | h <;> simp [h, Call.isCreateResource]
  rw [reconcileTargets, hGE]
  cases r with
  | error e => simpa using ht1
  | ok site =>
    dsimp only
    split
    · simp [Call.isCreateResource, List.countP_append, List.countP_cons, ht1]
    · split
      · split
        · simp [Call.isCreateResource, List.countP_append, List.countP_cons, ht1]
        · simp [Call.isCreateResource, List.countP_append, List.countP_cons, ht1,
            gc_countP_createResource]
      · split
        · simp [Call.isCreateResource, List.countP_append, List.countP_cons, ht1]
        · simp [Call.isCreateResource, List.countP_append, List.countP_cons, ht1,
            gc_countP_createResource]

/-- When the triple-match search found a target, the target phase never
calls `CreateTarget` (and never `CreateResource`). -/
theorem reconcileTargets_matched_no_creates (cfg : Cfg) (api : API)
    (siteCache : Option Site) (annotations : AnnMap)
    (resourceID ingressNs serviceName : String) (servicePort : Int)
    (path : HTTPIngressPath) (site : Site) (ts : List Target) (t0 : Target)
    (hsite : (getSiteInfo cfg api siteCache).2.2 = Except.ok site)
    (hts : api.listTargets resourceID = Except.ok ts)
    (hfind : ts.find? (fun t => t.SiteID == site.ID
        && t.IP == serviceName ++ "." ++ ingressNs ++ ".svc.cluster.local"
        && t.Port == servicePort) = some t0) :
    (reconcileTargets cfg api siteCache annotations resourceID ingressNs
      serviceName servicePort path).1.countP Call.isCreateTarget = 0 := by
  have hG := getSiteInfo_trace cfg api siteCache
  rcases hGE : getSiteInfo cfg api siteCache with ⟨t1, sc1, r⟩
  rw [hGE] at hG hsite
  simp only at hG hsite
  subst hsite
  have ht1 : t1.countP Call.isCreateTarget = 0 := by
    rcases hG with h | h <;> simp [h, Call.isCreateTarget]
  rw [reconcileTargets, hGE]
  dsimp only
  rw [hts]
  dsimp only
  rw [hfind]
  dsimp only
  split
  · simp [Call.isCreateTarget, List.countP_append, List.countP_cons, ht1]
  · simp [Call.isCreateTarget, List.countP_append, List.countP_cons, ht1,
      gc_countP_createTarget]

/-- Exact output of the target phase when a matching target exists and its
update succeeds. -/
theorem reconcileTargets_update_ok (cfg : Cfg) (api : API)
    (siteCache : Option Site) (annotations : AnnMap)
    (resourceID ingressNs serviceName : String) (servicePort : Int)
    (path : HTTPIngressPath) (site : Site) (ts : List Target) (t0 u : Target)
    (hsite : (getSiteInfo cfg api siteCache).2.2 = Except.ok site)
    (hts : api.listTargets resourceID = Except.ok ts)
    (hfind : ts.find? (fun t => t.SiteID == site.ID
        && t.IP == serviceName ++ "." ++ ingressNs ++ ".svc.cluster.local"
        && t.Port == servicePort) = some t0)
    (hupd : api.updateTarget (goItoa t0.ID)
        (buildTargetReq cfg.decodeHeadersJson annotations site.ID
          (serviceName ++ "." ++ ingressNs ++ ".svc.cluster.local") servicePort
          (if path.path = "" then "/" else path.path) path.pathType) = Except.ok u) :
    reconcileTargets cfg api siteCache annotations resourceID ingressNs
        serviceName servicePort path
      = ((getSiteInfo cfg api siteCache).1
          ++ [Call.listTargets resourceID,
              Call.updateTarget (goItoa t0.ID)
                (buildTargetReq cfg.decodeHeadersJson annotations site.ID
                  (serviceName ++ "." ++ ingressNs ++ ".svc.cluster.local") servicePort
                  (if path.path = "" then "/" else path.path) path.pathType)]
          ++ gcStaleTargets api ts t0.ID,
         (getSiteInfo cfg api siteCache).2.1, Except.ok ()) := by
  rcases hGE : getSiteInfo cfg api siteCache with ⟨t1, sc1, r⟩
  rw [hGE] at hsite
  simp only at hsite
  subst hsite
  rw [reconcileTargets, hGE]
  dsimp only
  rw [hts]
  dsimp only
  rw [hfind]
  dsimp only
  rw [hupd]

/-- Exact output of the target phase when no target matches and the
creation succeeds. -/
theorem reconcileTargets_create_ok (cfg : Cfg) (api : API)
    (siteCache : Option Site) (annotations : AnnMap)
    (resourceID ingressNs serviceName : String) (servicePort : Int)
    (path : HTTPIngressPath) (site : Site) (ts : List Target) (nt : Target)
    (hsite : (getSiteInfo cfg api siteCache).2.2 = Except.ok site)
    (hts : api.listTargets resourceID = Except.ok ts)
    (hfind : ts.find? (fun t => t.SiteID == site.ID
        && t.IP == serviceName ++ "." ++ ingressNs ++ ".svc.cluster.local"
        && t.Port == servicePort) = none)
    (hcr : api.createTarget resourceID
        (buildTargetReq cfg.decodeHeadersJson annotations site.ID
          (serviceName ++ "." ++ ingressNs ++ ".svc.cluster.local") servicePort
          (if path.path = "" then "/" else path.path) path.pathType) = Except.ok nt) :
    reconcileTargets cfg api siteCache annotations resourceID ingressNs
        serviceName servicePort path
      = ((getSiteInfo cfg api siteCache).1
          ++ [Call.listTargets resourceID,
              Call.createTarget resourceID
                (buildTargetReq cfg.decodeHeadersJson annotations site.ID
                  (serviceName ++ "." ++ ingressNs ++ ".svc.cluster.local") servicePort
                  (if path.path = "" then "/" else path.path) path.pathType)]
          ++ gcStaleTargets api ts nt.ID,
         (getSiteInfo cfg api siteCache).2.1, Except.ok ()) := by
  rcases hGE : getSiteInfo cfg api siteCache with ⟨t1, sc1, r⟩
  rw [hGE] at hsite
  simp only at hsite
  subst hsite
  rw [reconcileTargets, hGE]
  dsimp only
  rw [hts]
  dsimp only
  rw [hfind]
  dsimp only
  rw [hcr]

/-- Exact output of the target phase when a matching target exists but its
update fails: no garbage collection happens. -/
theorem reconcileTargets_update_err (cfg : Cfg) (api : API)
    (siteCache : Option Site) (annotations : AnnMap)
    (resourceID ingressNs serviceName : String) (servicePort : Int)
    (path : HTTPIngressPath) (site : Site) (ts : List Target) (t0 : Target)
    (e : String)
    (hsite : (getSiteInfo cfg api siteCache).2.2 = Except.ok site)
    (hts : api.listTargets resourceID = Except.ok ts)
    (hfind : ts.find? (fun t => t.SiteID == site.ID
        && t.IP == serviceName ++ "." ++ ingressNs ++ ".svc.cluster.local"
        && t.Port == servicePort) = some t0)
    (hupd : api.updateTarget (goItoa t0.ID)
        (buildTargetReq cfg.decodeHeadersJson annotations site.ID
          (serviceName ++ "." ++ ingressNs ++ ".svc.cluster.local") servicePort
          (if path.path = "" then "/" else path.path) path.pathType) = Except.error e) :
    reconcileTargets cfg api siteCache annotations resourceID ingressNs
        serviceName servicePort path
      = ((getSiteInfo cfg api siteCache).1
          ++ [Call.listTargets resourceID,
              Call.updateTarget (goItoa t0.ID)
                (buildTargetReq cfg.decodeHeadersJson annotations site.ID
                  (serviceName ++ "." ++ ingressNs ++ ".svc.cluster.local") servicePort
                  (if path.path = "" then "/" else path.path) path.pathType)],
         (getSiteInfo cfg api siteCache).2.1,
         Except.error ("failed to update Pangolin target " ++ goItoa t0.ID ++ ": " ++ e)) := by
  rcases hGE : getSiteInfo cfg api siteCache with ⟨t1, sc1, r⟩
  rw [hGE] at hsite
  simp only at hsite
  subst hsite
  rw [reconcileTargets, hGE]
  dsimp only
  rw [hts]
  dsimp only
  rw [hfind]
  dsimp only
  rw [hupd]

/-- C4: after listing the targets of a resource and determining the active
target (the first listed target matching the (site-id, ip, port) triple is
updated in place; otherwise a new target is created and becomes active),
`DeleteTarget` is invoked for exactly the listed targets whose id differs
from the active id; and when the only existing target already matches the
triple, zero deletions occur. -/
theorem c4_stale_target_gc (cfg : Cfg) (api : API) (siteCache : Option Site)
    (annotations : AnnMap) (resourceID ingressNs serviceName : String)
    (servicePort : Int) (path : HTTPIngressPath) (site : Site) (ts : List Target)
    (hsite : (getSiteInfo cfg api siteCache).2.2 = Except.ok site)
    (hts : api.listTargets resourceID = Except.ok ts) :
    (∀ t0 u, ts.find? (fun t => t.SiteID == site.ID
          && t.IP == serviceName ++ "." ++ ingressNs ++ ".svc.cluster.local"
          && t.Port == servicePort) = some t0 →
        api.updateTarget (goItoa t0.ID)
          (buildTargetReq cfg.decodeHeadersJson annotations site.ID
            (serviceName ++ "." ++ ingressNs ++ ".svc.cluster.local") servicePort
            (if path.path = "" then "/" else path.path) path.pathType) = Except.ok u →
        (reconcileTargets cfg api siteCache annotations resourceID ingressNs
            serviceName servicePort path).1.filter Call.isDeleteTarget
          = (ts.filter (fun t => !(t.ID == t0.ID))).map
              (fun t => Call.deleteTarget (goItoa t.ID)))
    ∧ (∀ nt, ts.find? (fun t => t.SiteID == site.ID
          && t.IP == serviceName ++ "." ++ ingressNs ++ ".svc.cluster.local"
          && t.Port == servicePort) = none →
        api.createTarget resourceID
          (buildTargetReq cfg.decodeHeadersJson annotations site.ID
            (serviceName ++ "." ++ ingressNs ++ ".svc.cluster.local") servicePort
            (if path.path = "" then "/" else path.path) path.pathType) = Except.ok nt →
        (reconcileTargets cfg api siteCache annotations resourceID ingressNs
            serviceName servicePort path).1.filter Call.isDeleteTarget
          = (ts.filter (fun t => !(t.ID == nt.ID))).map
              (fun t => Call.deleteTarget (goItoa t.ID)))
    ∧ (∀ t1, ts = [t1] → t1.SiteID = site.ID →
        t1.IP = serviceName ++ "." ++ ingressNs ++ ".svc.cluster.local" →
        t1.Port = servicePort →
        (reconcileTargets cfg api siteCache annotations resourceID ingressNs
          serviceName servicePort path).1.countP Call.isDeleteTarget = 0) := by
  have hfil1 : ((getSiteInfo cfg api siteCache).1).filter Call.isDeleteTarget = [] := by
    rcases getSiteInfo_trace cfg api siteCache with h | h <;> rw [h] <;> rfl
  have hcnt1 : ((getSiteInfo cfg api siteCache).1).countP Call.isDeleteTarget = 0 := by
    rcases getSiteInfo_trace cfg api siteCache with h | h <;> rw [h] <;> rfl
  refine ⟨?_, ?_, ?_⟩
  · intro t0 u hfind hupd
    rw [reconcileTargets_update_ok cfg api siteCache annotations resourceID ingressNs
      serviceName servicePort path site ts t0 u hsite hts hfind hupd]
    dsimp only
    rw [List.filter_append, List.filter_append, hfil1, filter_isDeleteTarget_gc,
      gcStaleTargets_eq]
    rfl
  · intro nt hfind hcr
    rw [reconcileTargets_create_ok cfg api siteCache annotations resourceID ingressNs
      serviceName servicePort path site ts nt hsite hts hfind hcr]
    dsimp only
    rw [List.filter_append, List.filter_append, hfil1, filter_isDeleteTarget_gc,
      gcStaleTargets_eq]
    rfl
  · intro t1 hts1 h1 h2 h3
    subst hts1
    have hfind : [t1].find? (fun t => t.SiteID == site.ID
        && t.IP == serviceName ++ "." ++ ingressNs ++ ".svc.cluster.local"
        && t.Port == servicePort) = some t1 := by
      simp [List.find?, h1, h2, h3]
    cases hu : api.updateTarget (goItoa t1.ID)
        (buildTargetReq cfg.decodeHeadersJson annotations site.ID
          (serviceName ++ "." ++ ingressNs ++ ".svc.cluster.local") servicePort
          (if path.path = "" then "/" else path.path) path.pathType) with
    | error e =>
      rw [reconcileTargets_update_err cfg api siteCache annotations resourceID ingressNs
        serviceName servicePort path site [t1] t1 e hsite hts hfind hu]
      dsimp only
      simp [List.countP_append, List.countP_cons, hcnt1, Call.isDeleteTarget]
    | ok u =>
      rw [reconcileTargets_update_ok cfg api siteCache annotations resourceID ingressNs
        serviceName servicePort path site [t1] t1 u hsite hts hfind hu]
      dsimp only
      simp [List.countP_append, List.countP_cons, hcnt1, Call.isDeleteTarget,
        gcStaleTargets]

/-- C4 witness: with one matching and one stale target, reconciling deletes
exactly the stale one. -/
theorem c4_witness :
    (reconcileTargets cfg0 apiTwoTargets (some site0) [] "42" "ns1" "svc" 80
      path0).1.filter Call.isDeleteTarget = [Call.deleteTarget "4"] := by
  have h := (c4_stale_target_gc cfg0 apiTwoTargets (some site0) [] "42" "ns1" "svc" 80
    path0 site0 [target0, targetStale] rfl rfl).1 target0 target0 (by decide) rfl
  exact h.trans (by rfl)

/-! ### Run-level helper lemmas -/

/-- With a non-empty stored resource id, the full run never calls
`CreateResource` (the create branch is unreachable and the target phase
never creates resources). -/
theorem run_no_createResource (cfg : Cfg) (api : API) (cache : CacheState)
    (ingress : IngressObj) (host : String) (path : HTTPIngressPath)
    (serviceName : String) (servicePort : Int)
    (hid : getAnn ingress.annotations annotationResourceID ≠ "") :
    (createOrUpdatePangolinResource cfg api cache ingress host path serviceName
      servicePort).trace.countP Call.isCreateResource = 0 := by
  rw [createOrUpdatePangolinResource]
  dsimp only
  by_cases hdom : (parseHost host).2 = ""
  · rw [if_pos hdom]
    rfl
  · rw [if_neg hdom]
    have hR := resolveDomainID_trace api cache.domainMap (parseHost host).2
    rcases hRE : resolveDomainID api cache.domainMap (parseHost host).2 with ⟨t0, dm0, r⟩
    rw [hRE] at hR
    simp only at hR
    have ht0 : t0.countP Call.isCreateResource = 0 := by
      rcases hR with h | h <;> simp [h, Call.isCreateResource]
    cases r with
    | error e => simpa using ht0
    | ok domainID =>
      dsimp only
      rw [if_pos hid]
      cases hU : api.updateResource (getAnn ingress.annotations annotationResourceID)
          (buildUpdateReq cfg.decodeHeadersJson
            (resourceNameFor cfg ingress (parseHost host).1) (parseHost host).1
            domainID ingress.annotations) with
      | error e =>
        simp [List.countP_append, List.countP_cons, ht0, Call.isCreateResource]
      | ok resource =>
        dsimp only
        rcases hT : reconcileTargets cfg api cache.siteCache ingress.annotations
            (getAnn ingress.annotations annotationResourceID) ingress.ns serviceName
            servicePort path with ⟨t2, sc2, res⟩
        have ht2 : t2.countP Call.isCreateResource = 0 := by
          have hrt := reconcileTargets_countP_createResource cfg api cache.siteCache
            ingress.annotations (getAnn ingress.annotations annotationResourceID)
            ingress.ns serviceName servicePort path
          rw [hT] at hrt
          simpa using hrt
        simp [List.countP_append, List.countP_cons, ht0, ht2, Call.isCreateResource]

/-- C1: idempotence of reconciliation.  For a managed ingress that already
carries a stored resource-id annotation, and whose existing target list
already contains a target matching the desired (site-id, backend address,
port) triple, running the reconcile again performs zero `CreateResource`
calls and zero `CreateTarget` calls. -/
theorem c1_reconcile_idempotent (cfg : Cfg) (api : API) (cache : CacheState)
    (ingress : IngressObj) (host : String) (path : HTTPIngressPath)
    (serviceName : String) (servicePort : Int) (site : Site) (ts : List Target)
    (hman : isManaged cfg ingress = true)
    (hid : getAnn ingress.annotations annotationResourceID ≠ "")
    (hsite : (getSiteInfo cfg api cache.siteCache).2.2 = Except.ok site)
    (hts : api.listTargets (getAnn ingress.annotations annotationResourceID)
      = Except.ok ts)
    (hmatch : ∃ t ∈ ts, t.SiteID = site.ID
        ∧ t.IP = serviceName ++ "." ++ ingress.ns ++ ".svc.cluster.local"
        ∧ t.Port = servicePort) :
    (createOrUpdatePangolinResource cfg api cache ingress host path serviceName
      servicePort).trace.countP Call.isCreateResource = 0
    ∧ (createOrUpdatePangolinResource cfg api cache ingress host path serviceName
      servicePort).trace.countP Call.isCreateTarget = 0 := by
  refine ⟨run_no_createResource cfg api cache ingress host path serviceName
    servicePort hid, ?_⟩
  obtain ⟨tm, hfind⟩ : ∃ tm, ts.find? (fun t => t.SiteID == site.ID
      && t.IP == serviceName ++ "." ++ ingress.ns ++ ".svc.cluster.local"
      && t.Port == servicePort) = some tm := by
    rcases hmatch with ⟨t, htm, h1, h2, h3⟩
    have hsome : (ts.find? (fun t => t.SiteID == site.ID
        && t.IP == serviceName ++ "." ++ ingress.ns ++ ".svc.cluster.local"
        && t.Port == servicePort)).isSome :=
      List.find?_isSome.mpr ⟨t, htm, by simp [h1, h2, h3]⟩
    exact Option.isSome_iff_exists.mp hsome
  rw [createOrUpdatePangolinResource]
  dsimp only
  by_cases hdom : (parseHost host).2 = ""
  · rw [if_pos hdom]
    rfl
  · rw [if_neg hdom]
    have hR := resolveDomainID_trace api cache.domainMap (parseHost host).2
    rcases hRE : resolveDomainID api cache.domainMap (parseHost host).2 with ⟨t0, dm0, r⟩
    rw [hRE] at hR
    simp only at hR
    have ht0 : t0.countP Call.isCreateTarget = 0 := by
      rcases hR with h | h <;> simp [h, Call.isCreateTarget]
    cases r with
    | error e => simpa using ht0
    | ok domainID =>
      dsimp only
      rw [if_pos hid]
      cases hU : api.updateResource (getAnn ingress.annotations annotationResourceID)
          (buildUpdateReq cfg.decodeHeadersJson
            (resourceNameFor cfg ingress (parseHost host).1) (parseHost host).1
            domainID ingress.annotations) with
      | error e =>
        simp [List.countP_append, List.countP_cons, ht0, Call.isCreateTarget]
      | ok resource =>
        dsimp only
        rcases hT : reconcileTargets cfg api cache.siteCache ingress.annotations
            (getAnn ingress.annotations annotationResourceID) ingress.ns serviceName
            servicePort path with ⟨t2, sc2, res⟩
        have ht2 : t2.countP Call.isCreateTarget = 0 := by
          have hrt := reconcileTargets_matched_no_creates cfg api cache.siteCache
            ingress.annotations (getAnn ingress.annotations annotationResourceID)
            ingress.ns serviceName servicePort path site ts tm hsite hts hfind
          rw [hT] at hrt
          simpa using hrt
        simp [List.countP_append, List.countP_cons, ht0, ht2, Call.isCreateTarget]

/-- C1 witness: a concrete already-reconciled ingress (stored id `42`, one
matching target) reconciles with zero creates. -/
theorem c1_witness :
    (createOrUpdatePangolinResource cfg0 apiOk cache0 ing0 "app.example.com" path0
      "svc" 80).trace.countP Call.isCreateResource = 0
    ∧ (createOrUpdatePangolinResource cfg0 apiOk cache0 ing0 "app.example.com" path0
      "svc" 80).trace.countP Call.isCreateTarget = 0 :=
  c1_reconcile_idempotent cfg0 apiOk cache0 ing0 "app.example.com" path0 "svc" 80
    site0 [target0] (by decide) (by decide) rfl rfl
    ⟨target0, by simp, by decide, by decide, by decide⟩

/-- C2, counterexample: for an ingress whose resource-id annotation is
non-empty but whose host has no registrable domain, the function returns
before issuing any external call, so no `UpdateResource` call is made,
contrary to the claim that it always calls update. -/
theorem c2_counterexample :
    getAnn ing0.annotations annotationResourceID ≠ ""
    ∧ (createOrUpdatePangolinResource cfg0 apiOk cache0 ing0 "example" path0
        "svc" 80).trace = [] :=
  ⟨by decide, rfl⟩

/-- C2 (amended): with a non-empty resource-id annotation, the function
never calls `CreateResource` — for any cache state (cold caches included)
and any API responses; and whenever the host parses to a non-empty domain
and domain resolution succeeds, `UpdateResource` is called on the stored id
with the full settings payload.  (As stated, the claim fails because the
update call is not reached when host parsing or domain resolution fails.) -/
theorem c2_resource_reuse (cfg : Cfg) (api : API) (cache : CacheState)
    (ingress : IngressObj) (host : String) (path : HTTPIngressPath)
    (serviceName : String) (servicePort : Int)
    (hid : getAnn ingress.annotations annotationResourceID ≠ "") :
    (createOrUpdatePangolinResource cfg api cache ingress host path serviceName
      servicePort).trace.countP Call.isCreateResource = 0
    ∧ (∀ domainID, (parseHost host).2 ≠ "" →
        (resolveDomainID api cache.domainMap (parseHost host).2).2.2 = Except.ok domainID →
        Call.updateResource (getAnn ingress.annotations annotationResourceID)
            (buildUpdateReq cfg.decodeHeadersJson
              (resourceNameFor cfg ingress (parseHost host).1) (parseHost host).1
              domainID ingress.annotations)
          ∈ (createOrUpdatePangolinResource cfg api cache ingress host path
              serviceName servicePort).trace) := by
  refine ⟨run_no_createResource cfg api cache ingress host path serviceName
    servicePort hid, ?_⟩
  intro domainID hdom hres
  rw [createOrUpdatePangolinResource]
  dsimp only
  rw [if_neg hdom]
  rcases hRE : resolveDomainID api cache.domainMap (parseHost host).2 with ⟨t0, dm0, r⟩
  rw [hRE] at hres
  simp only at hres
  subst hres
  dsimp only
  rw [if_pos hid]
  cases hU : api.updateResource (getAnn ingress.annotations annotationResourceID)
      (buildUpdateReq cfg.decodeHeadersJson
        (resourceNameFor cfg ingress (parseHost host).1) (parseHost host).1
        domainID ingress.annotations) with
  | error e => simp
  | ok resource =>
    dsimp only
    rcases hT : reconcileTargets cfg api cache.siteCache ingress.annotations
        (getAnn ingress.annotations annotationResourceID) ingress.ns serviceName
        servicePort path with ⟨t2, sc2, res⟩
    simp

/-- C2 witness: the amended statement evaluated on a concrete cold-cache
run: the stored id `42` is updated with the full settings payload and no
resource is created. -/
theorem c2_witness :
    (createOrUpdatePangolinResource cfg0 apiOk cache0 ing0 "app.example.com" path0
      "svc" 80).trace.countP Call.isCreateResource = 0
    ∧ Call.updateResource "42"
        (buildUpdateReq cfg0.decodeHeadersJson (resourceNameFor cfg0 ing0 "app")
          "app" "dom1" ing0.annotations)
        ∈ (createOrUpdatePangolinResource cfg0 apiOk cache0 ing0 "app.example.com"
            path0 "svc" 80).trace := by
  have h := c2_resource_reuse cfg0 apiOk cache0 ing0 "app.example.com" path0 "svc" 80
    (by decide)
  exact ⟨h.1, h.2 "dom1" (by decide) rfl⟩

/-- C3: create-path ordering.  With no stored resource id, a resolvable
domain, a successful create and annotation write, and a failing settings
update, the run issues exactly `CreateResource`, then the annotation write
carrying the new id, then `UpdateResource` — in that order — and returns an
error with the id already stored on the object, so any subsequent reconcile
of the resulting object performs zero `CreateResource` calls. -/
theorem c3_create_path_ordering (cfg : Cfg) (api : API) (cache : CacheState)
    (ingress : IngressObj) (host : String) (path : HTTPIngressPath)
    (serviceName : String) (servicePort : Int) (domainID : String)
    (resource : Resource) (eMsg : String)
    (hid0 : getAnn ingress.annotations annotationResourceID = "")
    (hdom : (parseHost host).2 ≠ "")
    (hres : (resolveDomainID api cache.domainMap (parseHost host).2).2.2 = Except.ok domainID)
    (hcr : ∀ q, api.createResource q = Except.ok resource)
    (hku : ∀ o, api.kubeUpdate o = Except.ok ())
    (hur : ∀ id q, api.updateResource id q = Except.error eMsg) :
    (createOrUpdatePangolinResource cfg api cache ingress host path serviceName
        servicePort).trace
      = (resolveDomainID api cache.domainMap (parseHost host).2).1
        ++ [Call.createResource (buildResourceReq
              (resourceNameFor cfg ingress (parseHost host).1) (parseHost host).1
              domainID ingress.annotations),
            Call.kubeUpdate (storeResourceID ingress (goItoa resource.ID)),
            Call.updateResource (goItoa resource.ID)
              (buildUpdateReq cfg.decodeHeadersJson
                (resourceNameFor cfg ingress (parseHost host).1) (parseHost host).1
                domainID ingress.annotations)]
    ∧ (createOrUpdatePangolinResource cfg api cache ingress host path serviceName
        servicePort).ingress = storeResourceID ingress (goItoa resource.ID)
    ∧ getAnn (createOrUpdatePangolinResource cfg api cache ingress host path
        serviceName servicePort).ingress.annotations annotationResourceID
        = goItoa resource.ID
    ∧ (∃ m, (createOrUpdatePangolinResource cfg api cache ingress host path
        serviceName servicePort).result = Except.error m)
    ∧ (∀ (cfg2 : Cfg) (api2 : API) (cache2 : CacheState) (host2 : String)
        (path2 : HTTPIngressPath) (sn2 : String) (sp2 : Int),
        (createOrUpdatePangolinResource cfg2 api2 cache2
          (createOrUpdatePangolinResource cfg api cache ingress host path
            serviceName servicePort).ingress
          host2 path2 sn2 sp2).trace.countP Call.isCreateResource = 0) := by
  have hrun : createOrUpdatePangolinResource cfg api cache ingress host path
      serviceName servicePort
      = { trace := (resolveDomainID api cache.domainMap (parseHost host).2).1
            ++ [Call.createResource (buildResourceReq
                  (resourceNameFor cfg ingress (parseHost host).1) (parseHost host).1
                  domainID ingress.annotations),
                Call.kubeUpdate (storeResourceID ingress (goItoa resource.ID)),
                Call.updateResource (goItoa resource.ID)
                  (buildUpdateReq cfg.decodeHeadersJson
                    (resourceNameFor cfg ingress (parseHost host).1) (parseHost host).1
                    domainID ingress.annotations)]
          ingress := storeResourceID ingress (goItoa resource.ID)
          cache := { domainMap := (resolveDomainID api cache.domainMap (parseHost host).2).2.1
                     siteCache := cache.siteCache }
          result := Except.error ("failed to apply settings to new Pangolin resource "
            ++ goItoa resource.ID ++ ": " ++ eMsg) } := by
    rw [createOrUpdatePangolinResource]
    dsimp only
    rw [if_neg hdom]
    rcases hRE : resolveDomainID api cache.domainMap (parseHost host).2 with ⟨t0, dm0, r⟩
    rw [hRE] at hres
    simp only at hres
    subst hres
    dsimp only
    rw [if_neg (by simp [hid0])]
    rw [hcr]
    dsimp only
    rw [hku]
    dsimp only
    rw [hur]
  refine ⟨?_, ?_, ?_, ?_, ?_⟩
  · rw [hrun]
  · rw [hrun]
  · rw [hrun]
    exact getAnn_insertMap_self ingress.annotations annotationResourceID (goItoa resource.ID)
  · rw [hrun]
    exact ⟨_, rfl⟩
  · intro cfg2 api2 cache2 host2 path2 sn2 sp2
    rw [hrun]
    apply run_no_createResource
    dsimp only [storeResourceID]
    rw [getAnn_insertMap_self]
    exact goItoa_ne_empty resource.ID

/-- C3 witness: concrete create path with a failing settings update; the
new id `42` is stored on the object and the run returns an error. -/
theorem c3_witness :
    getAnn (createOrUpdatePangolinResource cfg0 apiSettingsFail cache0 ingNew
      "app.example.com" path0 "svc" 80).ingress.annotations annotationResourceID = "42"
    ∧ (∃ m, (createOrUpdatePangolinResource cfg0 apiSettingsFail cache0 ingNew
        "app.example.com" path0 "svc" 80).result = Except.error m) := by
  have h := c3_create_path_ordering cfg0 apiSettingsFail cache0 ingNew
    "app.example.com" path0 "svc" 80 "dom1" res0 "boom" (by decide) (by decide) rfl
    (fun _ => rfl) (fun _ => rfl) (fun _ _ => rfl)
  exact ⟨h.2.2.1.trans (by rfl), h.2.2.2.1⟩

/-! ### The DeleteTarget endpoint cannot influence the run (claim C8) -/

theorem gcStaleTargets_api_irrel (apiA apiB : API) (ts : List Target) (active : Int) :
    gcStaleTargets apiA ts active = gcStaleTargets apiB ts active :=
  (gcStaleTargets_eq apiA ts active).trans (gcStaleTargets_eq apiB ts active).symm

theorem reconcileTargets_deleteTarget_irrel (cfg : Cfg) (api : API)
    (d : String → Except String Unit) (siteCache : Option Site)
    (annotations : AnnMap) (resourceID ingressNs serviceName : String)
    (servicePort : Int) (path : HTTPIngressPath) :
    reconcileTargets cfg { api with deleteTarget := d } siteCache annotations
        resourceID ingressNs serviceName servicePort path
      = reconcileTargets cfg api siteCache annotations resourceID ingressNs
        serviceName servicePort path := by
  rw [reconcileTargets, reconcileTargets]
  have hgs : getSiteInfo cfg { api with deleteTarget := d } siteCache
      = getSiteInfo cfg api siteCache := rfl
  rw [hgs]
  rcases getSiteInfo cfg api siteCache with ⟨t1, sc1, r⟩
  cases r with
  | error e => rfl
  | ok site =>
    dsimp only
    cases api.listTargets resourceID with
    | error e => rfl
    | ok ts =>
      dsimp only
      cases ts.find? (fun t => t.SiteID == site.ID
          && t.IP == serviceName ++ "." ++ ingressNs ++ ".svc.cluster.local"
          && t.Port == servicePort) with
      | some t0 =>
        dsimp only
        cases api.updateTarget (goItoa t0.ID)
            (buildTargetReq cfg.decodeHeadersJson annotations site.ID
              (serviceName ++ "." ++ ingressNs ++ ".svc.cluster.local") servicePort
              (if path.path = "" then "/" else path.path) path.pathType) with
        | error e => rfl
        | ok u =>
          dsimp only
          rw [gcStaleTargets_api_irrel { api with deleteTarget := d } api ts t0.ID]
      | none =>
        dsimp only
        cases api.createTarget resourceID
            (buildTargetReq cfg.decodeHeadersJson annotations site.ID
              (serviceName ++ "." ++ ingressNs ++ ".svc.cluster.local") servicePort
              (if path.path = "" then "/" else path.path) path.pathType) with
        | error e => rfl
        | ok nt =>
          dsimp only
          rw [gcStaleTargets_api_irrel { api with deleteTarget := d } api ts nt.ID]

theorem run_deleteTarget_irrel (cfg : Cfg) (api : API)
    (d : String → Except String Unit) (cache : CacheState) (ingress : IngressObj)
    (host : String) (path : HTTPIngressPath) (serviceName : String)
    (servicePort : Int) :
    createOrUpdatePangolinResource cfg { api with deleteTarget := d } cache ingress
        host path serviceName servicePort
      = createOrUpdatePangolinResource cfg api cache ingress host path serviceName
        servicePort := by
  rw [createOrUpdatePangolinResource, createOrUpdatePangolinResource]
  dsimp only
  by_cases hdom : (parseHost host).2 = ""
  · simp only [if_pos hdom]
  · simp only [if_neg hdom]
    have hrd : resolveDomainID { api with deleteTarget := d } cache.domainMap
        (parseHost host).2 = resolveDomainID api cache.domainMap (parseHost host).2 := rfl
    rw [hrd]
    rcases resolveDomainID api cache.domainMap (parseHost host).2 with ⟨t0, dm0, r⟩
    cases r with
    | error e => rfl
    | ok domainID =>
      dsimp only
      by_cases hid : getAnn ingress.annotations annotationResourceID ≠ ""
      · simp only [if_pos hid]
        cases api.updateResource (getAnn ingress.annotations annotationResourceID)
            (buildUpdateReq cfg.decodeHeadersJson
              (resourceNameFor cfg ingress (parseHost host).1) (parseHost host).1
              domainID ingress.annotations) with
        | error e => rfl
        | ok resource =>
          dsimp only
          rw [reconcileTargets_deleteTarget_irrel]
      · simp only [if_neg hid]
        cases api.createResource (buildResourceReq
            (resourceNameFor cfg ingress (parseHost host).1) (parseHost host).1
            domainID ingress.annotations) with
        | error e => rfl
        | ok resource =>
          dsimp only
          cases api.kubeUpdate (storeResourceID ingress (goItoa resource.ID)) with
          | error e => rfl
          | ok u =>
            dsimp only
            cases api.updateResource (goItoa resource.ID)
                (buildUpdateReq cfg.decodeHeadersJson
                  (resourceNameFor cfg ingress (parseHost host).1) (parseHost host).1
                  domainID ingress.annotations) with
            | error e => rfl
            | ok r2 =>
              dsimp only
              rw [reconcileTargets_deleteTarget_irrel]

/-- C8: stale-target cleanup is best-effort.  The whole run output is
invariant under the behaviour of the `DeleteTarget` endpoint (matching the
code, which only logs a deletion failure and continues the loop), and when
every step before garbage collection succeeds the reconcile returns nil —
in particular even when every stale deletion fails, since the conclusion
holds for any `deleteTarget` behaviour. -/
theorem c8_gc_best_effort (cfg : Cfg) (api : API)
    (d1 d2 : String → Except String Unit) (cache : CacheState)
    (ingress : IngressObj) (host : String) (path : HTTPIngressPath)
    (serviceName : String) (servicePort : Int) :
    (createOrUpdatePangolinResource cfg { api with deleteTarget := d1 } cache
        ingress host path serviceName servicePort
      = createOrUpdatePangolinResource cfg { api with deleteTarget := d2 } cache
        ingress host path serviceName servicePort)
    ∧ (∀ (site : Site) (ts : List Target) (tm u : Target) (r0 : Resource)
        (domainID : String),
        getAnn ingress.annotations annotationResourceID ≠ "" →
        (parseHost host).2 ≠ "" →
        (resolveDomainID api cache.domainMap (parseHost host).2).2.2
          = Except.ok domainID →
        (∀ id q, api.updateResource id q = Except.ok r0) →
        (getSiteInfo cfg api cache.siteCache).2.2 = Except.ok site →
        api.listTargets (getAnn ingress.annotations annotationResourceID)
          = Except.ok ts →
        ts.find? (fun t => t.SiteID == site.ID
          && t.IP == serviceName ++ "." ++ ingress.ns ++ ".svc.cluster.local"
          && t.Port == servicePort) = some tm →
        (∀ id q, api.updateTarget id q = Except.ok u) →
        (createOrUpdatePangolinResource cfg api cache ingress host path serviceName
          servicePort).result = Except.ok ()) := by
  constructor
  · exact (run_deleteTarget_irrel cfg api d1 cache ingress host path serviceName
      servicePort).trans
      (run_deleteTarget_irrel cfg api d2 cache ingress host path serviceName
        servicePort).symm
  · intro site ts tm u r0 domainID hid hdom hres hupdR hsite hts hfind hupdT
    rw [createOrUpdatePangolinResource]
    dsimp only
    rw [if_neg hdom]
    rcases hRE : resolveDomainID api cache.domainMap (parseHost host).2 with ⟨t0, dm0, r⟩
    rw [hRE] at hres
    simp only at hres
    subst hres
    dsimp only
    rw [if_pos hid]
    rw [hupdR]
    dsimp only
    rw [reconcileTargets_update_ok cfg api cache.siteCache ingress.annotations
      (getAnn ingress.annotations annotationResourceID) ingress.ns serviceName
      servicePort path site ts tm u hsite hts hfind (hupdT _ _)]

/-- C8 witness: with one stale target and a DeleteTarget endpoint that
always fails, the concrete reconcile still returns nil, and swapping the
DeleteTarget behaviour does not change the run at all. -/
theorem c8_witness :
    (createOrUpdatePangolinResource cfg0 apiDeleteTgtFail cache0 ing0
      "app.example.com" path0 "svc" 80).result = Except.ok ()
    ∧ createOrUpdatePangolinResource cfg0
        { apiTwoTargets with deleteTarget := fun _ => Except.error "down" } cache0
        ing0 "app.example.com" path0 "svc" 80
      = createOrUpdatePangolinResource cfg0
        { apiTwoTargets with deleteTarget := fun _ => Except.ok () } cache0
        ing0 "app.example.com" path0 "svc" 80 := by
  constructor
  · exact (c8_gc_best_effort cfg0 apiDeleteTgtFail (fun _ => Except.ok ())
      (fun _ => Except.ok ()) cache0 ing0 "app.example.com" path0 "svc" 80).2
      site0 [target0, targetStale] target0 target0 res0 "dom1" (by decide) (by decide)
      rfl (fun _ _ => rfl) rfl rfl (by decide) (fun _ _ => rfl)
  · exact ((c8_gc_best_effort cfg0 apiTwoTargets (fun _ => Except.error "down")
      (fun _ => Except.ok ()) cache0 ing0 "app.example.com" path0 "svc" 80).1)

end PangolinIngress
